import Mathlib

/-!
Verification of the Predictra anomaly-detection pipeline.

This file is a shallow embedding, in Lean 4, of the numerical core of the
Python sources under `backend/models/` (`anomaly.py`, `trainer.py`,
`simple_trainer.py`, `simple_predictor.py`): window construction, delimiter
inference, missing-value handling, sensor-column resolution, percentile-based
threshold calibration, reconstruction scoring, and the terminal-event
discipline of the process boundary.

Conventions used throughout:
* float arithmetic is idealized as exact rational arithmetic (`Rat`);
* non-finite floats (NaN, plus or minus infinity), where a claim depends on
  them, are modelled by the explicit sum type `EFloat`;
* a Python exception is an `Except.error` (or `none` for helpers that model a
  single raising call);
* the opaque fitting capability (Keras model) and the fitted scaler are
  passed as function parameters where a scoring routine applies them;
* column names are `List Char`, compared by code point exactly as Python
  compares `str`.

Each claim `Cn` of the specification is settled by the theorem(s) named
`cn_...` at the end of the file.
-/

namespace Predictra

/-! ## Shared helpers -/

/-- Lexicographic comparison of column names by code point: the order Python's
`sorted` uses on `str` values. -/
def nameLe : List Char → List Char → Bool
  | [], _ => true
  | _ :: _, [] => false
  | a :: as, b :: bs =>
    if a.toNat < b.toNat then true
    else if b.toNat < a.toNat then false
    else nameLe as bs

/-! ## Window Builder (claim C1) -/

namespace Anomaly

/-- Sequence length used by `anomaly.py` (`SEQUENCE_LEN = 5`). -/
def SEQUENCE_LEN : Nat := 5

/-- Embedding of `create_sequences` (`backend/models/anomaly.py`, lines 78-86):
raises `ValueError` when `len(data) < sequence_len`; otherwise
`np.lib.stride_tricks.sliding_window_view` produces the `N - L + 1` sliding
windows, window `i` being the contiguous slice `data[i : i+L]`. -/
def create_sequences (data : List (List Rat)) (sequence_len : Nat) :
    Except String (List (List (List Rat))) :=
  if data.length < sequence_len then
    Except.error "Data length is less than sequence length"
  else
    Except.ok ((List.range (data.length + 1 - sequence_len)).map
      (fun i => (data.drop i).take sequence_len))

end Anomaly

namespace Trainer

/-- Sequence length used by `trainer.py` (`SEQUENCE_LENGTH = 10`). -/
def SEQUENCE_LENGTH : Nat := 10

/-- Embedding of `SimpleTrainer.create_sequences` (`backend/models/trainer.py`,
lines 101-111): appends `data[i : i+SEQUENCE_LENGTH]` for every `i` in
`range(len(data) - SEQUENCE_LENGTH + 1)`. When `len(data) < SEQUENCE_LENGTH`
the Python `range` is empty, so the function returns an empty array without
raising any error. -/
def create_sequences (data : List (List Rat)) : List (List (List Rat)) :=
  (List.range (data.length + 1 - SEQUENCE_LENGTH)).map
    (fun i => (data.drop i).take SEQUENCE_LENGTH)

end Trainer

/-! ## Batch scoring (claims C2 and C10) -/

namespace Predictor

/-- One row of `np.mean((scaled_data - predictions) ** 2, axis=1)` in
`SimplePredictor.predict` (`backend/models/simple_predictor.py`, line 213):
the mean over the feature axis of the squared residuals of one sample. -/
def rowMseError (row pred : List Rat) : Rat :=
  (List.zipWith (fun a b => (a - b) ^ 2) row pred).sum / row.length

/-- Embedding of `mse_errors` in `SimplePredictor.predict` (line 213): one
reconstruction error per sample row of the scaled data. The opaque model's
output is the `predictions` argument. -/
def mse_errors (scaled_data predictions : List (List Rat)) : List Rat :=
  List.zipWith rowMseError scaled_data predictions

/-- Modelled from the spec (section 4.7), for comparison with the code: the
per-timestamp overlap smoothing the specification describes. Window `i`
covers timestamps `i .. i+L-1`; a timestamp's score is the mean of the errors
of all covering windows, and `0` when no window covers it. -/
def specTimestampScores (windowErrors : List Rat) (n sequenceLength : Nat) : List Rat :=
  (List.range n).map fun t =>
    let covering := (List.range windowErrors.length).filter
      (fun i => decide (i ≤ t) && decide (t < i + sequenceLength))
    if covering.length = 0 then 0
    else (covering.map (fun i => windowErrors.getD i 0)).sum / covering.length

/-- Result fields of `SimplePredictor.predict` used by the claims (the
confidence heuristic, which involves a floating-point square root, is not
modelled). -/
structure PredictResult where
  anomaly_score : Rat
  is_anomaly : Bool
  threshold_used : Rat
  anomaly_count : Nat
  processed_samples : Nat
deriving DecidableEq

/-- Embedding of `SimplePredictor.predict` (`simple_predictor.py`, lines
188-249): per-row MSE errors, anomaly count against the stored threshold,
overall score equal to the mean error, `is_anomaly` iff the overall score
exceeds the threshold. -/
def predict (scaled_data predictions : List (List Rat)) (threshold : Rat) :
    PredictResult :=
  let errors := mse_errors scaled_data predictions
  { anomaly_score := errors.sum / errors.length
    is_anomaly := decide (errors.sum / errors.length > threshold)
    threshold_used := threshold
    anomaly_count := errors.countP (fun e => decide (e > threshold))
    processed_samples := scaled_data.length }

/-- Embedding of the threshold read in `SimplePredictor.load_model_and_params`
(`simple_predictor.py`, line 103): `threshold_data.get('threshold', 1.0)`.
The parsed JSON object is an association list of numeric entries. -/
def load_threshold (threshold_data : List (List Char × Rat)) : Rat :=
  (threshold_data.lookup ("threshold".toList)).getD 1

/-- Embedding of the threshold-file branch of `load_model_and_params`
(lines 98-107): `none` models the `return False` taken when the file is
missing; when the file exists, loading succeeds with the `get` default. -/
def load_threshold_entry (threshold_file : Option (List (List Char × Rat))) :
    Option Rat :=
  match threshold_file with
  | none => none
  | some threshold_data => some (load_threshold threshold_data)

end Predictor

/-! ## Percentiles and threshold calibration (claims C3 and C4) -/

/-- Embedding of `np.percentile(xs, q)` with the default linear interpolation,
restricted to finite data: sort ascending, set `pos = q/100 * (n-1)`, and
interpolate linearly between the neighbouring order statistics. On empty
input (on which numpy raises) the value is the junk value `0`; every use
below guards emptiness explicitly. -/
def percentileLinear (xs : List Rat) (q : Rat) : Rat :=
  let s := List.insertionSort (fun a b : Rat => a ≤ b) xs
  let n := s.length
  let pos : Rat := q / 100 * ((n : Rat) - 1)
  let i : Nat := (⌊pos⌋).toNat
  let t : Rat := pos - (i : Rat)
  let a := s.getD i 0
  let b := s.getD (min (i + 1) (n - 1)) 0
  a + (b - a) * t

namespace UltraTrainer

/-- Embedding of `UltraSimpleTrainer.calculate_threshold`
(`backend/models/simple_trainer.py`, lines 572-588): the 95th percentile of
the per-sample reconstruction errors, then the pretrained blend. A missing
prior, or a Python-falsy (zero) prior, skips blending; when
`abs(threshold - pretrained) < pretrained * 0.5` the persisted value is
`0.7 * pretrained + 0.3 * threshold`, otherwise the new value is kept.
`none` models the exception numpy raises on an empty error array. -/
def calculate_threshold (mse_errors : List Rat) (pretrained_threshold : Option Rat) :
    Option Rat :=
  if mse_errors.isEmpty then none
  else
    let threshold := percentileLinear mse_errors 95
    match pretrained_threshold with
    | none => some threshold
    | some p =>
        if p ≠ 0 then
          if |threshold - p| < p * (1 / 2) then
            some ((7 / 10) * p + (3 / 10) * threshold)
          else some threshold
        else some threshold

end UltraTrainer

namespace Trainer

/-- Embedding of `SimpleTrainer.calculate_threshold` (`backend/models/trainer.py`,
lines 202-226) on finite error values: the stored threshold is the plain 95th
percentile; no pretrained blending exists in this trainer. `none` models the
exception numpy raises on an empty array. -/
def calculate_threshold (mse_errors : List Rat) : Option Rat :=
  if mse_errors.isEmpty then none
  else some (percentileLinear mse_errors 95)

end Trainer

/-! ### Non-finite error values -/

/-- Idealized IEEE double for the claims that depend on NaN/Inf handling. -/
inductive EFloat where
  | nan : EFloat
  | inf : EFloat
  | ninf : EFloat
  | fin : Rat → EFloat
deriving DecidableEq

/-- Test for NaN (`np.isnan`). -/
def EFloat.isNan : EFloat → Bool
  | .nan => true
  | _ => false

/-- Test for `np.isnan(x) | np.isinf(x)`, the validity filter of `anomaly.py`. -/
def EFloat.isInvalid : EFloat → Bool
  | .fin _ => false
  | _ => true

/-- Comparison used by `np.sort` on NaN-free data: `-inf` below all finite
values, `+inf` above. (NaN never reaches the sort in `percentileE` below.) -/
def EFloat.le : EFloat → EFloat → Bool
  | .ninf, _ => true
  | _, .ninf => false
  | _, .inf => true
  | .inf, _ => false
  | .fin a, .fin b => decide (a ≤ b)
  | .nan, _ => true
  | _, .nan => false

/-- IEEE subtraction on the idealized doubles. -/
def EFloat.sub : EFloat → EFloat → EFloat
  | .nan, _ => .nan
  | _, .nan => .nan
  | .fin a, .fin b => .fin (a - b)
  | .inf, .inf => .nan
  | .inf, _ => .inf
  | .ninf, .ninf => .nan
  | .ninf, _ => .ninf
  | .fin _, .inf => .ninf
  | .fin _, .ninf => .inf

/-- IEEE multiplication by a finite scalar (`0 * inf = NaN`). -/
def EFloat.mulRat : EFloat → Rat → EFloat
  | .nan, _ => .nan
  | .fin a, t => .fin (a * t)
  | .inf, t => if 0 < t then .inf else if t < 0 then .ninf else .nan
  | .ninf, t => if 0 < t then .ninf else if t < 0 then .inf else .nan

/-- IEEE addition on the idealized doubles. -/
def EFloat.add : EFloat → EFloat → EFloat
  | .nan, _ => .nan
  | _, .nan => .nan
  | .fin a, .fin b => .fin (a + b)
  | .inf, .ninf => .nan
  | .ninf, .inf => .nan
  | .inf, _ => .inf
  | _, .inf => .inf
  | .ninf, _ => .ninf
  | _, .ninf => .ninf

/-- Embedding of `np.percentile(xs, q)` on possibly non-finite data: numpy
sorts the array (NaN last), answers NaN whenever a NaN is present, and
otherwise applies its `_lerp` (`a + (b-a)*t` for `t < 0.5`, symmetrically
`b - (b-a)*(1-t)` above) to the neighbouring order statistics. `none` models
the exception raised on empty input. -/
def percentileE (xs : List EFloat) (q : Rat) : Option EFloat :=
  if xs.isEmpty then none
  else if xs.any EFloat.isNan then some .nan
  else
    let s := List.insertionSort (fun a b : EFloat => a.le b = true) xs
    let n := s.length
    let pos : Rat := q / 100 * ((n : Rat) - 1)
    let i : Nat := (⌊pos⌋).toNat
    let t : Rat := pos - (i : Rat)
    let a := s.getD i (.fin 0)
    let b := s.getD (min (i + 1) (n - 1)) (.fin 0)
    some (if t < 1 / 2 then a.add ((b.sub a).mulRat t)
          else b.sub ((b.sub a).mulRat (1 - t)))

namespace Anomaly

/-- Embedding of the NaN/Inf guard of `run_training_pipeline`
(`backend/models/anomaly.py`, lines 279-283): the loss array is filtered to
its valid entries whenever any entry is NaN or Inf (when none is, the filter
is a no-op, so the conditional is equivalent to always filtering). -/
def filter_losses (losses : List EFloat) : List EFloat :=
  if losses.any EFloat.isInvalid then losses.filter (fun e => ! e.isInvalid)
  else losses

/-- The finite values of a list of idealized doubles. -/
def finPart (losses : List EFloat) : List Rat :=
  losses.filterMap (fun e => match e with | .fin q => some q | _ => none)

/-- Embedding of the threshold computation of `run_training_pipeline`
(`anomaly.py`, lines 278-289): filter invalid losses, raise
`ValueError("All loss values are invalid (NaN or Inf)")` when nothing
remains, and otherwise take the 95th percentile of the valid losses. -/
def mse_threshold (train_mse_loss : List EFloat) : Except String Rat :=
  let valid := filter_losses train_mse_loss
  if valid.length = 0 then
    Except.error "All loss values are invalid (NaN or Inf)"
  else
    Except.ok (percentileLinear (finPart valid) 95)

end Anomaly

namespace Trainer

/-- Embedding of `SimpleTrainer.calculate_threshold` (`trainer.py`, lines
202-226) on possibly non-finite error values: `np.percentile` is applied to
the raw error array with no NaN/Inf filtering whatsoever, so a NaN error
propagates into the stored threshold instead of raising. -/
def calculate_thresholdE (mse_errors : List EFloat) : Option EFloat :=
  percentileE mse_errors 95

end Trainer

/-! ## Delimiter inference (claim C5) -/

namespace Anomaly

/-- Embedding of the delimiter choice in `run_training_pipeline`
(`anomaly.py`, lines 102-103): semicolon exactly when the first line holds
more than one semicolon, with no look at the comma count. -/
def detect_delimiter (first_line : List Char) : Char :=
  if first_line.count ';' > 1 then ';' else ','

end Anomaly

namespace UltraTrainer

/-- Embedding of the delimiter choice in
`UltraSimpleTrainer.load_and_preprocess_data` (`simple_trainer.py`, lines
190-193): semicolon when semicolons strictly outnumber commas, comma
otherwise (ties go to comma). -/
def detect_delimiter (first_line : List Char) : Char :=
  if first_line.count ';' > first_line.count ',' then ';' else ','

end UltraTrainer

namespace Predictor

/-- Embedding of the delimiter choice in
`SimplePredictor.load_and_preprocess_data` (`simple_predictor.py`, lines
142-144): comma when commas strictly outnumber semicolons, semicolon
otherwise (ties go to semicolon). -/
def detect_delimiter (first_line : List Char) : Char :=
  if first_line.count ',' > first_line.count ';' then ',' else ';'

end Predictor

/-! ## Missing-value handling (claim C6) -/

/-- Column-wise forward fill, threading the last seen value of every column
through the rows (the recursion of pandas `ffill`). -/
def ffillFrom (last : List (Option Rat)) :
    List (List (Option Rat)) → List (List (Option Rat))
  | [] => []
  | row :: rest =>
      let filled := List.zipWith
        (fun l c => match c with | some v => some v | none => l) last row
      filled :: ffillFrom filled rest

/-- pandas `DataFrame.ffill()`: forward fill each column from the top. -/
def ffill (df : List (List (Option Rat))) : List (List (Option Rat)) :=
  ffillFrom (List.replicate (df.headD []).length none) df

/-- pandas `DataFrame.bfill()`: backward fill is forward fill on the
reversed frame. -/
def bfill (df : List (List (Option Rat))) : List (List (Option Rat)) :=
  (ffill df.reverse).reverse

namespace Predictor

/-- Embedding of the missing-value chain in
`SimplePredictor.load_and_preprocess_data` (`simple_predictor.py`, lines
168-175): `fillna(method='ffill')`, then `fillna(method='bfill')`, then
`fillna(0)`. No rows are dropped. -/
def handle_missing (df : List (List (Option Rat))) : List (List Rat) :=
  (bfill (ffill df)).map (fun row => row.map (fun c => c.getD 0))

end Predictor

namespace UltraTrainer

/-- Embedding of the missing-value handling in
`UltraSimpleTrainer.load_and_preprocess_data` (`simple_trainer.py`, line
269): `df_sensors.ffill().bfill()` — no constant fill and no row dropping. -/
def handle_missing (df : List (List (Option Rat))) : List (List (Option Rat)) :=
  bfill (ffill df)

end UltraTrainer

namespace Trainer

/-- Embedding of the missing-value handling in
`SimpleTrainer.load_and_preprocess_data` (`trainer.py`, lines 80-83):
`df_sensors.dropna()` drops every row that contains any missing cell, and
nothing is filled. -/
def handle_missing (df : List (List (Option Rat))) : List (List (Option Rat)) :=
  df.filter (fun row => row.all (fun c => c.isSome))

end Trainer

/-! ## Sensor-column resolution (claim C7) -/

namespace Anomaly

/-- Feature cap of `anomaly.py` (`MAX_FEATURES = 10`). -/
def MAX_FEATURES : Nat := 10

/-- Embedding of the feature-column resolution of `run_training_pipeline`
(`anomaly.py`, lines 110 and 140-146): keep the caller-requested names
present in the CSV header (in caller order, duplicates kept), cap at
`MAX_FEATURES`, then Python `sorted`. -/
def resolve_feature_columns (sensor_columns available_cols : List (List Char)) :
    List (List Char) :=
  let available_sensors := sensor_columns.filter (fun c => available_cols.contains c)
  let limited := available_sensors.take MAX_FEATURES
  List.insertionSort (fun a b => nameLe a b = true) limited

end Anomaly

namespace Trainer

/-- Embedding of the column resolution of
`SimpleTrainer.load_and_preprocess_data` (`trainer.py`, line 71): the
caller-provided names present in the CSV are kept in caller order — no
sorting and no deduplication. -/
def resolve_columns (sensor_columns df_columns : List (List Char)) :
    List (List Char) :=
  sensor_columns.filter (fun c => df_columns.contains c)

end Trainer

namespace UltraTrainer

/-- Embedding of the provided-columns branch of
`UltraSimpleTrainer.load_and_preprocess_data` (`simple_trainer.py`, line
226): identical order-preserving filter, again unsorted. -/
def resolve_provided_columns (sensor_columns sample_columns : List (List Char)) :
    List (List Char) :=
  sensor_columns.filter (fun c => sample_columns.contains c)

end UltraTrainer

/-! ## Single-reading prediction (claim C8) -/

namespace Anomaly

/-- Result payload of `run_prediction` (`anomaly.py`, lines 411-420). -/
structure PredictionData where
  reconstruction_error : Rat
  threshold : Rat
  is_anomaly : Bool
  confidence : Rat
deriving DecidableEq

/-- Embedding of `np.mean(np.square(prediction - model_input))` (`anomaly.py`,
line 403): the mean of the squared residuals over every entry of the
(window-shaped) matrices. -/
def flatMeanSq (prediction model_input : List (List Rat)) : Rat :=
  let sq := (List.zipWith
    (fun r p => List.zipWith (fun x y => (x - y) ^ 2) r p) prediction model_input).flatten
  sq.sum / sq.length

/-- Embedding of `run_prediction` (`anomaly.py`, lines 384-420). The loaded
scaler and model are opaque capabilities passed as functions. The single
reading is validated against the trained column count, replicated
`SEQUENCE_LEN` times into a pseudo-window, scaled, reconstructed, and scored
with one MSE value. -/
def run_prediction (sensor_values : List Rat) (expected_columns : List (List Char))
    (threshold : Rat) (scaler : List Rat → List Rat)
    (model : List (List Rat) → List (List Rat)) : Except String PredictionData :=
  if sensor_values.length ≠ expected_columns.length then
    Except.error "sensor value count does not match the trained columns"
  else
    let input_data := List.replicate SEQUENCE_LEN sensor_values
    let scaled_data := input_data.map scaler
    let prediction := model scaled_data
    let reconstruction_error := flatMeanSq prediction scaled_data
    Except.ok
      { reconstruction_error := reconstruction_error
        threshold := threshold
        is_anomaly := decide (reconstruction_error > threshold)
        confidence := min 1 (|reconstruction_error - threshold| / threshold) }

end Anomaly

/-! ## Terminal events of the process boundary (claim C9) -/

/-- Structured JSON events printed to stdout, as described in section 6 of the
specification. `terminalSuccess` covers both the `{"success": true, ...}` and
the `{"type": "success", ...}` envelopes; `terminalError` covers
`{"success": false, ...}` and `{"type": "error", ...}`. -/
inductive Event where
  | progress (percent : Nat) (msg : String)
  | message (msg : String) (message_type : String)
  | heartbeat
  | terminalSuccess (payload : String)
  | terminalError (err : String)
deriving DecidableEq

/-- An event is terminal when it is a success or failure envelope. -/
def Event.isTerminal : Event → Bool
  | .terminalSuccess _ => true
  | .terminalError _ => true
  | _ => false

/-- The non-terminal events a pipeline body may emit while working (progress
updates, detailed messages, heartbeats). -/
inductive BodyEvent where
  | progress (percent : Nat) (msg : String)
  | message (msg : String) (message_type : String)
  | heartbeat
deriving DecidableEq

/-- Inclusion of body events into the full event alphabet. -/
def BodyEvent.toEvent : BodyEvent → Event
  | .progress p m => .progress p m
  | .message m t => .message m t
  | .heartbeat => .heartbeat

/-- A job body: the non-terminal events it emitted before finishing, paired
with its outcome (normal return, or the message of the exception that
escaped the stage code). -/
abbrev JobRun : Type := List BodyEvent × Except String Unit

namespace Anomaly

/-- Embedding of the event trace of `run_training_pipeline` (`anomaly.py`,
lines 94-349): the `try` block emits its progress events and, on success,
the single `{"success": true}` envelope; the catch-all `except` prints
exactly one `{"success": false}` envelope. -/
def run_training_trace (job : JobRun) : List Event :=
  job.1.map BodyEvent.toEvent ++
    match job.2 with
    | Except.ok _ => [Event.terminalSuccess "Training completed successfully."]
    | Except.error e => [Event.terminalError e]

end Anomaly

namespace Trainer

/-- Embedding of the event behaviour of `SimpleTrainer.train` (`trainer.py`,
lines 253-289): on success only the body events are printed; on failure the
`except` block prints a `{"type": "error"}` envelope and re-raises. -/
def train_trace (job : JobRun) : List Event × Except String Unit :=
  match job with
  | (evs, Except.ok u) => (evs.map BodyEvent.toEvent, Except.ok u)
  | (evs, Except.error e) =>
      (evs.map BodyEvent.toEvent ++ [Event.terminalError e], Except.error e)

/-- Embedding of the event trace of `main` in `trainer.py` (lines 291-335)
for a job whose work happens inside `SimpleTrainer.train`: `main` prints the
`{"type": "success"}` envelope when `train` returns, and its own
`{"type": "error"}` envelope when the exception re-raised by `train`
reaches it. -/
def main_trace (job : JobRun) : List Event :=
  let r := train_trace job
  r.1 ++
    match r.2 with
    | Except.ok _ => [Event.terminalSuccess "stats"]
    | Except.error e => [Event.terminalError e]

end Trainer

/-! ## Helper lemmas -/

theorem nameLe_total (a b : List Char) : nameLe a b = true ∨ nameLe b a = true := by
  induction a generalizing b with
  | nil => left; rfl
  | cons x xs ih =>
    cases b with
    | nil => right; rfl
    | cons y ys =>
      rcases lt_trichotomy x.toNat y.toNat with h | h | h
      · left; simp [nameLe, h]
      · rcases ih ys with h2 | h2
        · left; simp [nameLe, h, h2]
        · right; simp [nameLe, h.symm, h2]
      · right; simp [nameLe, h]

theorem nameLe_trans (a b c : List Char) (hab : nameLe a b = true)
    (hbc : nameLe b c = true) : nameLe a c = true := by
  induction a generalizing b c with
  | nil => rfl
  | cons x xs ih =>
    cases b with
    | nil => simp [nameLe] at hab
    | cons y ys =>
      cases c with
      | nil => simp [nameLe] at hbc
      | cons z zs =>
        simp only [nameLe] at hab hbc ⊢
        by_cases h1 : x.toNat < y.toNat
        · by_cases h2 : y.toNat < z.toNat
          · have hxz : x.toNat < z.toNat := by omega
            simp [hxz]
          · by_cases h3 : z.toNat < y.toNat
            · simp [h2, h3] at hbc
            · have hxz : x.toNat < z.toNat := by omega
              simp [hxz]
        · by_cases h1' : y.toNat < x.toNat
          · simp [h1, h1'] at hab
          · simp [h1, h1'] at hab
            by_cases h2 : y.toNat < z.toNat
            · have hxz : x.toNat < z.toNat := by omega
              simp [hxz]
            · by_cases h3 : z.toNat < y.toNat
              · simp [h2, h3] at hbc
              · simp [h2, h3] at hbc
                have hx : ¬ x.toNat < z.toNat := by omega
                have hz : ¬ z.toNat < x.toNat := by omega
                simp [hx, hz]
                exact ih ys zs hab hbc

instance : IsTotal (List Char) (fun a b => nameLe a b = true) := ⟨nameLe_total⟩

instance : IsTrans (List Char) (fun a b => nameLe a b = true) := ⟨nameLe_trans⟩

theorem windows_spec (data : List (List Rat)) (L : Nat) (hL : L ≤ data.length) :
    ((List.range (data.length + 1 - L)).map
        (fun i => (data.drop i).take L)).length = data.length - L + 1 ∧
    ∀ i, i < data.length - L + 1 →
      ((List.range (data.length + 1 - L)).map
          (fun i => (data.drop i).take L))[i]? = some ((data.drop i).take L) ∧
        ((data.drop i).take L).length = L := by
  constructor
  · simp
    omega
  · intro i hi
    refine ⟨?_, ?_⟩
    · rw [List.getElem?_map, List.getElem?_range (by simpa using by omega)]
      rfl
    · simp
      omega

/-! ## Claim C1 -/

/-- C1 (amended): for every feature matrix and every sequence length L ≥ 1,
`anomaly.create_sequences` returns exactly N−L+1 windows when N ≥ L, window i
being the contiguous slice `data[i : i+L]` of exactly L consecutive rows in
index order, and raises when N < L; `SimpleTrainer.create_sequences` in
`trainer.py` produces the same windows when N ≥ L but, when N < L, returns an
empty window list without raising any error. -/
theorem c1_window_builder (data : List (List Rat)) (L : Nat) (_hL : 1 ≤ L) :
    (L ≤ data.length →
      ∃ ws, Anomaly.create_sequences data L = Except.ok ws ∧
        ws.length = data.length - L + 1 ∧
        ∀ i, i < data.length - L + 1 →
          ws[i]? = some ((data.drop i).take L) ∧
            ((data.drop i).take L).length = L) ∧
    (data.length < L →
      Anomaly.create_sequences data L =
        Except.error "Data length is less than sequence length") ∧
    (Trainer.SEQUENCE_LENGTH ≤ data.length →
      (Trainer.create_sequences data).length =
          data.length - Trainer.SEQUENCE_LENGTH + 1 ∧
        ∀ i, i < data.length - Trainer.SEQUENCE_LENGTH + 1 →
          (Trainer.create_sequences data)[i]? =
            some ((data.drop i).take Trainer.SEQUENCE_LENGTH)) ∧
    (data.length < Trainer.SEQUENCE_LENGTH → Trainer.create_sequences data = []) := by
  refine ⟨?_, ?_, ?_, ?_⟩
  · intro h
    have hs := windows_spec data L h
    refine ⟨(List.range (data.length + 1 - L)).map (fun i => (data.drop i).take L),
      ?_, hs.1, hs.2⟩
    simp [Anomaly.create_sequences, Nat.not_lt.mpr h]
  · intro h
    simp [Anomaly.create_sequences, h]
  · intro h
    have hs := windows_spec data Trainer.SEQUENCE_LENGTH h
    exact ⟨hs.1, fun i hi => (hs.2 i hi).1⟩
  · intro h
    have hz : data.length + 1 - Trainer.SEQUENCE_LENGTH = 0 := by
      simp only [Trainer.SEQUENCE_LENGTH] at h ⊢
      omega
    simp [Trainer.create_sequences, hz]

/-- C1 witness: a two-row frame with L = 2 passes `anomaly.create_sequences`
without raising. -/
theorem c1_window_builder_witness :
    1 ≤ 2 ∧ (Anomaly.create_sequences [[(0 : Rat)], [1]] 2).isOk = true := by
  refine ⟨by decide, ?_⟩
  obtain ⟨h1, -, -, -⟩ := c1_window_builder [[(0 : Rat)], [1]] 2 (by decide)
  obtain ⟨ws, hok, -, -⟩ := h1 (by decide)
  rw [hok]
  rfl

/-- C1 counterexample: `SimpleTrainer.create_sequences` of `trainer.py`,
applied to a one-row matrix while its sequence length is 10, returns the
empty window list — it does not raise an InsufficientData error as the claim
requires for every Window Builder whenever N < L. -/
theorem c1_counterexample :
    ([[(1 : Rat)]] : List (List Rat)).length < Trainer.SEQUENCE_LENGTH ∧
    Trainer.create_sequences [[(1 : Rat)]] = [] := by
  exact ⟨by decide, rfl⟩

/-! ## Claim C2 -/

/-- C2 (amended): `SimplePredictor.predict` computes exactly one
reconstruction error per sample row — the mean over the feature axis of the
squared residuals of that row alone — and assigns each timestamp that single
per-row error; no per-window errors and no overlap smoothing exist in the
batch scorer. -/
theorem c2_per_row_errors (scaled predictions : List (List Rat))
    (h : scaled.length = predictions.length) :
    (Predictor.mse_errors scaled predictions).length = scaled.length ∧
    ∀ i, i < scaled.length →
      (Predictor.mse_errors scaled predictions)[i]? =
        some (Predictor.rowMseError (scaled.getD i []) (predictions.getD i [])) := by
  constructor
  · simp [Predictor.mse_errors, h]
  · intro i hi
    have hi2 : i < predictions.length := h ▸ hi
    rw [Predictor.mse_errors, List.getElem?_zipWith,
      List.getElem?_eq_getElem hi, List.getElem?_eq_getElem hi2]
    simp [List.getD_eq_getElem?_getD, List.getElem?_eq_getElem, hi, hi2]

/-- C2 witness: two rows with matching reconstruction shape yield two
per-row errors. -/
theorem c2_per_row_errors_witness :
    (Predictor.mse_errors [[(1 : Rat)], [2]] [[0], [0]]).length = 2 := by
  have h := c2_per_row_errors [[(1 : Rat)], [2]] [[0], [0]] (by decide)
  simpa using h.1

/-- C2 counterexample: for the scaled frame [[2],[0],[0]] (three timestamps,
fewer rows than the trained sequence length 10, so the spec's Window Builder
yields zero windows) with a zero reconstruction, the code's per-timestamp
scores are [4, 0, 0], while the overlap smoothing described by the claim has
zero covering windows everywhere and must score every timestamp 0: the
values differ at timestamp 0. -/
theorem c2_counterexample :
    Predictor.mse_errors [[(2 : Rat)], [0], [0]] [[0], [0], [0]] = [4, 0, 0] ∧
    Predictor.specTimestampScores [] 3 10 = [0, 0, 0] ∧
    (4 : Rat) ≠ 0 := by
  refine ⟨?_, rfl, by norm_num⟩
  simp [Predictor.mse_errors, Predictor.rowMseError]
  norm_num

/-! ## Claim C3 -/

/-- C3: for every nonempty finite error distribution the calibrated primary
threshold is the 95th percentile of the per-window errors (`trainer.py`
stores exactly that, `simple_trainer.py` starts from it), and when a prior
threshold p exists the persisted value is 0.7*p + 0.3*new when
|new − p| < 0.5*p, and the new value unmodified otherwise (a Python-falsy
prior of exactly 0 also keeps the new value, consistently with the claim,
because the blend condition is then unsatisfiable). -/
theorem c3_threshold_calibration (errors : List Rat) (p : Rat) (h : errors ≠ []) :
    Trainer.calculate_threshold errors = some (percentileLinear errors 95) ∧
    UltraTrainer.calculate_threshold errors none =
      some (percentileLinear errors 95) ∧
    (|percentileLinear errors 95 - p| < p * (1 / 2) →
      UltraTrainer.calculate_threshold errors (some p) =
        some ((7 / 10) * p + (3 / 10) * percentileLinear errors 95)) ∧
    (¬ |percentileLinear errors 95 - p| < p * (1 / 2) →
      UltraTrainer.calculate_threshold errors (some p) =
        some (percentileLinear errors 95)) := by
  have hne : errors.isEmpty = false := by
    simpa [List.isEmpty_iff] using h
  refine ⟨?_, ?_, ?_, ?_⟩
  · simp [Trainer.calculate_threshold, hne]
  · simp [UltraTrainer.calculate_threshold, hne]
  · intro hblend
    have hp : p ≠ 0 := by
      rintro rfl
      rw [mul_comm, mul_zero] at hblend
      exact absurd hblend (not_lt.mpr (abs_nonneg _))
    have hblend2 : |percentileLinear errors 95 - p| < p * 2⁻¹ := by
      simpa [one_div] using hblend
    simp [UltraTrainer.calculate_threshold, hne, hp, hblend2]
  · intro hblend
    have hblend2 : ¬ |percentileLinear errors 95 - p| < p * 2⁻¹ := by
      simpa [one_div] using hblend
    by_cases hp : p = 0
    · simp [UltraTrainer.calculate_threshold, hne, hp]
    · simp [UltraTrainer.calculate_threshold, hne, hp, hblend2]

/-- C3 witness: a single error value 2 with prior 2 blends to
0.7*2 + 0.3*2 = 2. -/
theorem c3_threshold_calibration_witness :
    UltraTrainer.calculate_threshold [(2 : Rat)] (some 2) = some 2 := by
  have hper : percentileLinear [(2 : Rat)] 95 = 2 := by
    norm_num [percentileLinear, List.insertionSort]
  have h := (c3_threshold_calibration [(2 : Rat)] 2 (by decide)).2.2.1
    (by rw [hper]; norm_num)
  rw [hper] at h
  rw [h]
  norm_num

/-! ## Claim C4 -/

/-- The conditional filter of `anomaly.py` is equivalent to always keeping
exactly the valid losses. -/
theorem filter_losses_eq (losses : List EFloat) :
    Anomaly.filter_losses losses = losses.filter (fun e => ! e.isInvalid) := by
  unfold Anomaly.filter_losses
  by_cases h : losses.any EFloat.isInvalid
  · simp [h]
  · rw [if_neg (by simpa using h)]
    rw [eq_comm, List.filter_eq_self]
    intro a ha
    rw [List.any_eq_true] at h
    push_neg at h
    simpa using h a ha

/-- C4 (amended): the calibrator of `anomaly.py` removes every NaN/Inf loss
before the percentile and fails with the degenerate-distribution error when
every loss is invalid, computing the 95th percentile over exactly the valid
losses otherwise; `SimpleTrainer.calculate_threshold` of `trainer.py`
performs no filtering at all, so an error set containing a NaN produces a
NaN threshold value instead of failing. -/
theorem c4_invalid_loss_handling (losses : List EFloat) :
    (losses.all EFloat.isInvalid = true →
      Anomaly.mse_threshold losses =
        Except.error "All loss values are invalid (NaN or Inf)") ∧
    (losses.any (fun e => ! e.isInvalid) = true →
      Anomaly.mse_threshold losses =
        Except.ok (percentileLinear
          (Anomaly.finPart (losses.filter (fun e => ! e.isInvalid))) 95)) ∧
    (losses ≠ [] → losses.any EFloat.isNan = true →
      Trainer.calculate_thresholdE losses = some EFloat.nan) := by
  refine ⟨?_, ?_, ?_⟩
  · intro hall
    have hnil : losses.filter (fun e => ! e.isInvalid) = [] := by
      rw [List.filter_eq_nil_iff]
      intro a ha
      simp only [List.all_eq_true] at hall
      simp [hall a ha]
    simp [Anomaly.mse_threshold, filter_losses_eq, hnil]
  · intro hsome
    obtain ⟨a, ha, hpa⟩ := List.any_eq_true.mp hsome
    have hne : (losses.filter (fun e => ! e.isInvalid)).length ≠ 0 := by
      rw [Ne, List.length_eq_zero, List.filter_eq_nil_iff]
      intro hnil
      exact absurd hpa (by simpa using hnil a ha)
    simp [Anomaly.mse_threshold, filter_losses_eq, hne]
  · intro hnil hnan
    have hne : losses.isEmpty = false := by
      simpa [List.isEmpty_iff] using hnil
    simp [Trainer.calculate_thresholdE, percentileE, hne, hnan]

/-- C4 witness: one NaN loss beside one finite loss is filtered out by the
anomaly pipeline, which then succeeds on the finite value alone. -/
theorem c4_invalid_loss_handling_witness :
    Anomaly.mse_threshold [EFloat.nan, EFloat.fin 7] =
      Except.ok (percentileLinear [(7 : Rat)] 95) := by
  have h := (c4_invalid_loss_handling [EFloat.nan, EFloat.fin 7]).2.1 (by decide)
  simpa [Anomaly.finPart, EFloat.isInvalid] using h

/-- C4 counterexample: with every training error equal to NaN (all invalid),
`SimpleTrainer.calculate_threshold` of `trainer.py` returns a NaN threshold
value instead of failing with a DegenerateErrorDistribution error. -/
theorem c4_counterexample :
    [EFloat.nan].all EFloat.isInvalid = true ∧
    Trainer.calculate_thresholdE [EFloat.nan] = some EFloat.nan := by
  exact ⟨rfl, rfl⟩

/-! ## Claim C5 -/

/-- C5 (amended): `simple_trainer.py` and `simple_predictor.py` infer the
delimiter by comparing comma and semicolon counts on the first line —
strictly more commas always selects the comma (the two differ only on ties,
which the trainer gives to the comma and the predictor to the semicolon);
`anomaly.py` instead selects the semicolon exactly when the first line holds
at least two semicolons, regardless of how many commas it holds. -/
theorem c5_delimiter_inference (line : List Char) :
    (UltraTrainer.detect_delimiter line = ';' ↔
      line.count ';' > line.count ',') ∧
    (Predictor.detect_delimiter line = ',' ↔
      line.count ',' > line.count ';') ∧
    (Anomaly.detect_delimiter line = ';' ↔ line.count ';' > 1) ∧
    (line.count ',' > line.count ';' →
      UltraTrainer.detect_delimiter line = ',' ∧
        Predictor.detect_delimiter line = ',') := by
  have hcc : (',' : Char) ≠ ';' := by decide
  have hsc : (';' : Char) ≠ ',' := by decide
  refine ⟨?_, ?_, ?_, ?_⟩
  · by_cases h : line.count ';' > line.count ',' <;>
      simp [UltraTrainer.detect_delimiter, h, hcc]
  · by_cases h : line.count ',' > line.count ';' <;>
      simp [Predictor.detect_delimiter, h, hsc]
  · by_cases h : line.count ';' > 1 <;>
      simp [Anomaly.detect_delimiter, h, hcc]
  · intro h
    have h2 : ¬ line.count ';' > line.count ',' := by omega
    exact ⟨by simp [UltraTrainer.detect_delimiter, h2],
      by simp [Predictor.detect_delimiter, h]⟩

/-- C5 witness: a first line with two commas and no semicolon is parsed with
the comma delimiter by both majority-style detectors. -/
theorem c5_delimiter_inference_witness :
    UltraTrainer.detect_delimiter ("a,b,c".toList) = ',' ∧
    Predictor.detect_delimiter ("a,b,c".toList) = ',' := by
  exact (c5_delimiter_inference ("a,b,c".toList)).2.2.2 (by decide)

/-- C5 counterexample: the first line "a,b,c,d;e;f" holds strictly more
commas (3) than semicolons (2), yet `anomaly.py` parses it with the
semicolon delimiter because it only checks whether the semicolon count
exceeds one. -/
theorem c5_counterexample :
    ("a,b,c,d;e;f".toList.count ',' > "a,b,c,d;e;f".toList.count ';') ∧
    Anomaly.detect_delimiter ("a,b,c,d;e;f".toList) = ';' ∧
    (';' : Char) ≠ ',' := by
  refine ⟨by decide, by decide, by decide⟩

/-! ## Claim C7 -/

/-- C7 (amended): only `anomaly.py` sorts the resolved sensor columns — its
resolved list is always lexicographically sorted, but duplicates in the
caller-provided names survive; `trainer.py` and `simple_trainer.py` keep the
caller-provided order unsorted (their resolution is the order-preserving
sublist of the requested names present in the header). The persisted column
list is whatever the resolution produced, reused positionally at
inference. -/
theorem c7_column_ordering (sensor_columns available : List (List Char)) :
    List.Sorted (fun a b => nameLe a b = true)
      (Anomaly.resolve_feature_columns sensor_columns available) ∧
    (Trainer.resolve_columns sensor_columns available).Sublist sensor_columns ∧
    (UltraTrainer.resolve_provided_columns sensor_columns available).Sublist
      sensor_columns := by
  refine ⟨?_, List.filter_sublist _, List.filter_sublist _⟩
  exact List.sorted_insertionSort _ _

/-- C7 counterexample: `trainer.py` resolves the caller names ["b", "a"]
against a header containing both to ["b", "a"], which is not
lexicographically sorted; and `anomaly.py` keeps the duplicate in the caller
names ["a", "a"], so the resolved set is not deduplicated either. -/
theorem c7_counterexample :
    Trainer.resolve_columns ["b".toList, "a".toList]
        ["a".toList, "b".toList] = ["b".toList, "a".toList] ∧
    nameLe ("b".toList) ("a".toList) = false ∧
    Anomaly.resolve_feature_columns ["a".toList, "a".toList] ["a".toList] =
      ["a".toList, "a".toList] := by
  refine ⟨by decide, by decide, by decide⟩

/-! ## Claim C6 -/

theorem ffillFrom_length (last : List (Option Rat)) (df : List (List (Option Rat))) :
    (ffillFrom last df).length = df.length := by
  induction df generalizing last with
  | nil => rfl
  | cons r rs ih => simp [ffillFrom, ih]

theorem ffill_length (df : List (List (Option Rat))) :
    (ffill df).length = df.length := by
  simp [ffill, ffillFrom_length]

theorem bfill_length (df : List (List (Option Rat))) :
    (bfill df).length = df.length := by
  simp [bfill, ffill_length]

/-- Filling one row against a column-`j`-missing memory leaves column `j`
missing. -/
theorem fill_cell_none {last row : List (Option Rat)} {j : Nat}
    (hl : last.getD j none = none) (hr : row.getD j none = none) :
    (List.zipWith (fun l c => match c with | some v => some v | none => l)
      last row).getD j none = none := by
  rw [List.getD_eq_getElem?_getD, List.getElem?_zipWith]
  cases h1 : last[j]? with
  | none => simp
  | some a =>
    cases h2 : row[j]? with
    | none => simp
    | some b =>
      have ha : a = none := by
        rw [List.getD_eq_getElem?_getD, h1] at hl
        simpa using hl
      have hb : b = none := by
        rw [List.getD_eq_getElem?_getD, h2] at hr
        simpa using hr
      subst ha
      subst hb
      simp

/-- Forward filling preserves an entirely missing column. -/
theorem ffillFrom_col_none {j : Nat} (df : List (List (Option Rat)))
    (last : List (Option Rat)) (hl : last.getD j none = none)
    (hdf : ∀ row ∈ df, row.getD j none = none) :
    ∀ row ∈ ffillFrom last df, row.getD j none = none := by
  induction df generalizing last with
  | nil => simp [ffillFrom]
  | cons r rs ih =>
    intro row hrow
    have hcell := fill_cell_none hl (hdf r (by simp))
    rcases (by simpa [ffillFrom] using hrow :
        row = List.zipWith (fun l c => match c with | some v => some v | none => l)
          last r ∨ row ∈ ffillFrom
            (List.zipWith (fun l c => match c with | some v => some v | none => l)
              last r) rs) with h | h
    · exact h ▸ hcell
    · exact ih _ hcell (fun row2 h2 => hdf row2 (by simp [h2])) row h

theorem ffill_col_none {j : Nat} (df : List (List (Option Rat)))
    (hdf : ∀ row ∈ df, row.getD j none = none) :
    ∀ row ∈ ffill df, row.getD j none = none := by
  refine ffillFrom_col_none df _ ?_ hdf
  rw [List.getD_eq_getElem?_getD]
  cases h : (List.replicate (df.headD []).length (none : Option Rat))[j]? with
  | none => rfl
  | some a =>
    have := List.getElem?_mem h
    simp only [List.mem_replicate] at this
    simp [this.2]

theorem bfill_col_none {j : Nat} (df : List (List (Option Rat)))
    (hdf : ∀ row ∈ df, row.getD j none = none) :
    ∀ row ∈ bfill df, row.getD j none = none := by
  intro row hrow
  rw [bfill, List.mem_reverse] at hrow
  exact ffill_col_none df.reverse
    (fun r hr => hdf r (List.mem_reverse.mp hr)) row hrow

/-- A missing cell becomes 0 under the final `fillna(0)`. -/
theorem mapped_cell_zero {row : List (Option Rat)} {j : Nat}
    (h : row.getD j none = none) :
    (row.map (fun c => c.getD 0)).getD j 0 = 0 := by
  rw [List.getD_eq_getElem?_getD, List.getElem?_map]
  cases hj : row[j]? with
  | none => rfl
  | some c =>
    have hc : c = none := by
      rw [List.getD_eq_getElem?_getD, hj] at h
      simpa using h
    subst hc
    rfl

/-- C6 (amended): `simple_predictor.py` fills missing values by forward fill,
then backward fill, then the constant 0 and never drops a row (a cell whose
whole column is missing ends up 0); `simple_trainer.py` forward- and
backward-fills only, also dropping nothing; `trainer.py` instead drops every
row containing any missing cell — even rows with observed values — and fills
nothing: its surviving rows are exactly the fully observed rows of the
frame. -/
theorem c6_missing_values (df : List (List (Option Rat))) (j : Nat) :
    (Predictor.handle_missing df).length = df.length ∧
    (UltraTrainer.handle_missing df).length = df.length ∧
    (∀ row ∈ Trainer.handle_missing df, row.all (fun c => c.isSome) = true) ∧
    (∀ row ∈ df, row.all (fun c => c.isSome) = true →
      row ∈ Trainer.handle_missing df) ∧
    ((∀ row ∈ df, row.getD j none = none) →
      ∀ row ∈ Predictor.handle_missing df, row.getD j 0 = 0) := by
  refine ⟨?_, ?_, ?_, ?_, ?_⟩
  · simp [Predictor.handle_missing, bfill_length, ffill_length]
  · simp [UltraTrainer.handle_missing, bfill_length, ffill_length]
  · intro row hrow
    exact (List.mem_filter.mp hrow).2
  · intro row hrow hall
    exact List.mem_filter.mpr ⟨hrow, hall⟩
  · intro hcol row hrow
    rw [Predictor.handle_missing, List.mem_map] at hrow
    obtain ⟨row2, hrow2, rfl⟩ := hrow
    exact mapped_cell_zero (bfill_col_none _ (ffill_col_none _ hcol) row2 hrow2)

/-- C6 witness: a frame whose second column is entirely missing keeps its row
through the predictor's fill chain, and that cell becomes 0. -/
theorem c6_missing_values_witness :
    (Predictor.handle_missing [[some (5 : Rat), none]]).length = 1 ∧
    ([(5 : Rat), 0] : List Rat).getD 1 0 = 0 := by
  have h := c6_missing_values [[some (5 : Rat), none]] 1
  refine ⟨by simpa using h.1, ?_⟩
  refine h.2.2.2.2 (by decide) [(5 : Rat), 0] ?_
  have e : Predictor.handle_missing [[some (5 : Rat), none]] = [[5, 0]] := rfl
  rw [e]
  exact List.mem_singleton.mpr rfl

/-- C6 counterexample: on the frame [[1, missing], [2, 3]], `trainer.py`
drops the first row entirely even though it has an observed value (1),
keeping only [[2, 3]] and filling nothing, while the fill chain the claim
describes retains both rows as [[1, 3], [2, 3]]. -/
theorem c6_counterexample :
    Trainer.handle_missing [[some (1 : Rat), none], [some 2, some 3]] =
      [[some 2, some 3]] ∧
    (Trainer.handle_missing [[some (1 : Rat), none], [some 2, some 3]]).length = 1 ∧
    Predictor.handle_missing [[some (1 : Rat), none], [some 2, some 3]] =
      [[1, 3], [2, 3]] := by
  refine ⟨rfl, rfl, rfl⟩

/-! ## Claim C8 -/

/-- C8: when the single reading matches the trained column count,
`run_prediction` replicates the one sample exactly `SEQUENCE_LEN` times into
a pseudo-window, computes one reconstruction error over it, reports
`is_anomaly` exactly when that error strictly exceeds the stored threshold,
and reports confidence `min 1 (|error − threshold| / threshold)`. -/
theorem c8_single_reading (sensor_values : List Rat)
    (expected_columns : List (List Char)) (threshold : Rat)
    (scaler : List Rat → List Rat) (model : List (List Rat) → List (List Rat))
    (hlen : sensor_values.length = expected_columns.length) :
    Anomaly.run_prediction sensor_values expected_columns threshold scaler model =
      Except.ok
        { reconstruction_error :=
            Anomaly.flatMeanSq
              (model (List.replicate Anomaly.SEQUENCE_LEN (scaler sensor_values)))
              (List.replicate Anomaly.SEQUENCE_LEN (scaler sensor_values))
          threshold := threshold
          is_anomaly :=
            decide (Anomaly.flatMeanSq
                (model (List.replicate Anomaly.SEQUENCE_LEN (scaler sensor_values)))
                (List.replicate Anomaly.SEQUENCE_LEN (scaler sensor_values)) >
              threshold)
          confidence :=
            min 1 ((|Anomaly.flatMeanSq
                (model (List.replicate Anomaly.SEQUENCE_LEN (scaler sensor_values)))
                (List.replicate Anomaly.SEQUENCE_LEN (scaler sensor_values)) -
              threshold|) / threshold) } ∧
    ∀ r, Anomaly.run_prediction sensor_values expected_columns threshold
        scaler model = Except.ok r →
      (r.is_anomaly = true ↔ r.reconstruction_error > r.threshold) := by
  have hmap : (List.replicate Anomaly.SEQUENCE_LEN sensor_values).map scaler =
      List.replicate Anomaly.SEQUENCE_LEN (scaler sensor_values) :=
    List.map_replicate
  constructor
  · rw [Anomaly.run_prediction, if_neg (by simp [hlen])]
    simp only [hmap]
  · intro r hr
    rw [Anomaly.run_prediction, if_neg (by simp [hlen])] at hr
    cases hr
    simp

/-- C8 witness: the identity scaler and identity model on the reading [1]
with threshold 1 give error 0, no anomaly, confidence 1. -/
theorem c8_single_reading_witness :
    Anomaly.run_prediction [(1 : Rat)] [("a".toList)] 1
        (fun v => v) (fun m => m) =
      Except.ok
        { reconstruction_error := 0, threshold := 1,
          is_anomaly := false, confidence := 1 } := by
  have h := (c8_single_reading [(1 : Rat)] [("a".toList)] 1
    (fun v => v) (fun m => m) (by decide)).1
  rw [h]
  have he : Anomaly.flatMeanSq
      (List.replicate Anomaly.SEQUENCE_LEN ((fun v => v) [(1 : Rat)]))
      (List.replicate Anomaly.SEQUENCE_LEN ((fun v => v) [(1 : Rat)])) = 0 := by
    norm_num [Anomaly.flatMeanSq, Anomaly.SEQUENCE_LEN, List.replicate]
  simp only [he]
  norm_num

/-! ## Claim C9 -/

/-- Body events are never terminal envelopes. -/
theorem body_no_terminal (evs : List BodyEvent) :
    (evs.map BodyEvent.toEvent).countP Event.isTerminal = 0 := by
  rw [List.countP_eq_zero]
  intro a ha
  rw [List.mem_map] at ha
  obtain ⟨b, -, rfl⟩ := ha
  cases b <;> simp [BodyEvent.toEvent, Event.isTerminal]

/-- C9 (amended): `anomaly.py` emits exactly one terminal envelope per
training job whatever the outcome; `trainer.py` emits exactly one terminal
envelope on success, but on a failure inside `SimpleTrainer.train` it emits
two error envelopes — one printed by `train` before re-raising and a second
printed by `main`'s handler. -/
theorem c9_terminal_events (job : JobRun) :
    (Anomaly.run_training_trace job).countP Event.isTerminal = 1 ∧
    (∀ u, job.2 = Except.ok u →
      (Trainer.main_trace job).countP Event.isTerminal = 1) ∧
    (∀ e, job.2 = Except.error e →
      (Trainer.main_trace job).countP Event.isTerminal = 2) := by
  obtain ⟨evs, out⟩ := job
  refine ⟨?_, ?_, ?_⟩
  · cases out with
    | ok u =>
        show (evs.map BodyEvent.toEvent ++
          [Event.terminalSuccess "Training completed successfully."]).countP
            Event.isTerminal = 1
        rw [List.countP_append, body_no_terminal]
        rfl
    | error e =>
        show (evs.map BodyEvent.toEvent ++ [Event.terminalError e]).countP
          Event.isTerminal = 1
        rw [List.countP_append, body_no_terminal]
        rfl
  · intro u hu
    cases hu
    show (evs.map BodyEvent.toEvent ++ [Event.terminalSuccess "stats"]).countP
      Event.isTerminal = 1
    rw [List.countP_append, body_no_terminal]
    rfl
  · intro e he
    cases he
    show ((evs.map BodyEvent.toEvent ++ [Event.terminalError e]) ++
      [Event.terminalError e]).countP Event.isTerminal = 2
    rw [List.countP_append, List.countP_append, body_no_terminal]
    rfl

/-- C9 witness: a successfully completing job emits exactly one terminal
envelope through either boundary. -/
theorem c9_terminal_events_witness :
    (Anomaly.run_training_trace ([], Except.ok ())).countP Event.isTerminal = 1 ∧
    (Trainer.main_trace ([], Except.ok ())).countP Event.isTerminal = 1 := by
  exact ⟨(c9_terminal_events ([], Except.ok ())).1,
    (c9_terminal_events ([], Except.ok ())).2.1 () rfl⟩

/-- C9 counterexample: a job whose training stage fails makes `trainer.py`
print two terminal error envelopes — one from `SimpleTrainer.train`'s
handler, one from `main`'s — contradicting the claim that every job emits
exactly one terminal event. -/
theorem c9_counterexample :
    (Trainer.main_trace ([], Except.error "training failed")).countP
      Event.isTerminal = 2 := by
  rfl

/-! ## Claim C10 -/

/-- C10: when the persisted threshold descriptor exists but has no
"threshold" key, batch inference proceeds with the default threshold 1.0
(loading succeeds rather than failing closed) and returns a normal
prediction result whose threshold field is that default. -/
theorem c10_default_threshold (threshold_data : List (List Char × Rat))
    (scaled predictions : List (List Rat))
    (h : threshold_data.lookup ("threshold".toList) = none) :
    Predictor.load_threshold threshold_data = 1 ∧
    Predictor.load_threshold_entry (some threshold_data) = some 1 ∧
    (Predictor.predict scaled predictions
        (Predictor.load_threshold threshold_data)).threshold_used = 1 ∧
    (Predictor.predict scaled predictions
        (Predictor.load_threshold threshold_data)).processed_samples =
      scaled.length := by
  have h1 : Predictor.load_threshold threshold_data = 1 := by
    unfold Predictor.load_threshold
    rw [h]
    rfl
  exact ⟨h1, by simp [Predictor.load_threshold_entry, h1],
    by rw [h1]; rfl, rfl⟩

/-- C10 witness: a descriptor holding only a "mean_loss" entry loads the
default threshold 1. -/
theorem c10_default_threshold_witness :
    Predictor.load_threshold [("mean_loss".toList, (5 : Rat))] = 1 := by
  exact (c10_default_threshold [("mean_loss".toList, (5 : Rat))] [] []
    (by decide)).1

end Predictra

